import Mathlib

set_option maxRecDepth 8192

/-!
Verification of the finance-advisor backend (`server.py`, `db.py`).

The Flask handlers are shallowly embedded as pure Lean functions.  JSON
values (request bodies, upstream API responses, decoded AI output) are
modelled by the inductive `JsonVal`; Python `dict.get`, truthiness, `float()`
and `json.loads` are modelled by executable functions below.  The database
is a pair of lists of rows (`DbState`); `INSERT` appends a row and `SELECT`
reads; the sqlite driver itself is an external collaborator, so a row the
code binds to an `INSERT` statement is modelled as appended even when a
column value is `null` (the NOT NULL constraints are stated as properties
of the bound values, not re-implemented inside the driver model).

The outbound HTTP interaction of `call_gemini_api` is an oracle
(`HttpOutcome`): either `requests.post` raises a transport error, or it
yields a response with a status code, a reason phrase, a body text, and the
result of `.json()` (`none` models a `json.JSONDecodeError`).  Python
ints and floats are distinguished (`json.loads` yields an int for a plain
integer literal); float values are kept as exact rationals, so double
rounding and the values of non-finite floats are out of scope — but the
success/raise classification of `float()`, including the `OverflowError`
on out-of-range ints that `except (ValueError, TypeError)` does not
catch, is modelled faithfully.
-/

/-- JSON values as decoded by Python: objects are association lists with
distinct keys (the parser below deduplicates, keeping the last binding,
as `json.loads` does).  A plain integer literal decodes to a Python
`int` (`int`); a literal with a fraction or exponent decodes to a float
(`num`), whose value is kept as an exact rational. -/
inductive JsonVal where
  | null : JsonVal
  | bool : Bool → JsonVal
  | int : Int → JsonVal
  | num : Rat → JsonVal
  | str : String → JsonVal
  | arr : List JsonVal → JsonVal
  | obj : List (String × JsonVal) → JsonVal

/-- Python `d.get(k)` on an association list: `some v` when the key is
present (even when the value is `null`), `none` when absent. -/
def pyGet (kvs : List (String × JsonVal)) (k : String) : Option JsonVal :=
  match kvs with
  | [] => none
  | (k', v) :: rest => if k' = k then some v else pyGet rest k

/-- Python `d.get(k, default)`. -/
def pyGetD (kvs : List (String × JsonVal)) (k : String) (d : JsonVal) : JsonVal :=
  (pyGet kvs k).getD d

/-- Python truthiness of a JSON value: `None`, `False`, `0`, `""`, `[]`
and `\x7b\x7d` are falsy, everything else truthy. -/
def pyTruthy : JsonVal → Bool
  | .null => false
  | .bool b => b
  | .int n => n ≠ 0
  | .num q => q ≠ 0
  | .str s => s ≠ ""
  | .arr xs => !xs.isEmpty
  | .obj kvs => !kvs.isEmpty

/-- Subscripting by a non-negative integer, `x[i]`: succeeds on a list
(index in range) and on a string (yields a one-character string); every
other receiver raises (`none`). -/
def pyIndexNat : JsonVal → Nat → Option JsonVal
  | .arr xs, i => xs.get? i
  | .str s, i => (s.data.get? i).map (fun c => .str (String.singleton c))
  | _, _ => none

/-- Subscripting by a string key, `x[k]`: succeeds on a dict holding the
key; a missing key (`KeyError`) or a non-dict receiver (`TypeError`)
raises (`none`). -/
def pyIndexStr : JsonVal → String → Option JsonVal
  | .obj kvs, k => pyGet kvs k
  | _, _ => none

/-- Substring test on Lean strings, modelling Python `pat in s`. -/
def strContains (s pat : String) : Bool := (s.splitOn pat).length ≠ 1

/-- Python `pat in x` for a string `pat`: substring test on a string,
membership on a list (a JSON element equals a Python string only when it is
that string), key test on a dict; raises (`none`) otherwise. -/
def pyInStr (pat : String) : JsonVal → Option Bool
  | .str s => some (strContains s pat)
  | .arr xs => some (xs.any (fun v => match v with | .str s => s = pat | _ => false))
  | .obj kvs => some (kvs.any (fun kv => kv.1 = pat))
  | _ => none

/-- Decimal value of a digit run. -/
def digitsToNat (ds : List Char) : Nat := ds.foldl (fun a c => a * 10 + (c.toNat - 48)) 0

/-- Outcome of Python `float(x)`.  `ok` is a finite result (its value
kept exact; double rounding is not modelled).  `nonfinite` is a
successful conversion to `inf`/`-inf`/`nan`, whose value is out of
scope.  `unmodeled` is a string outside the modelled ASCII fragment
(Python succeeds on Unicode digits or raises `ValueError`; either way
the guarded conversion does not abort the handler).  `caught` is a
`ValueError` or `TypeError`, the two classes the upload handler's
`except (ValueError, TypeError)` catches.  `overflow` is the
`OverflowError` raised for an integer outside the double range, which
that except clause does NOT catch. -/
inductive FloatAttempt where
  | ok : Rat → FloatAttempt
  | nonfinite : FloatAttempt
  | unmodeled : FloatAttempt
  | caught : FloatAttempt
  | overflow : FloatAttempt

/-- Whitespace Python `float()` strips around a string argument. -/
def isPyStrWs (c : Char) : Bool :=
  c = ' ' ∨ c = '\t' ∨ c = '\n' ∨ c = '\r' ∨ c = '\x0b' ∨ c = '\x0c'

/-- Python int-to-float conversion raises `OverflowError` exactly when
the correctly rounded value would be infinite: |n| ≥ 2^1024 − 2^970. -/
def pyIntFloatOverflows (n : Int) : Bool :=
  2 ^ 1024 - 2 ^ 970 ≤ n.natAbs

/-- Helper for `underscoresOk`: walks the literal remembering the
previous character. -/
def underscoresOkAux : Char → List Char → Bool
  | _, [] => true
  | prev, c :: rest =>
    if c = '_' then
      prev.isDigit &&
      (match rest with | d :: _ => d.isDigit | [] => false) &&
      underscoresOkAux c rest
    else underscoresOkAux c rest

/-- Python numeric-literal underscores must sit between two digits
(`1_0` is legal; `_1`, `1_`, `1__0`, `1_.5` are `ValueError`s). -/
def underscoresOk : List Char → Bool
  | [] => true
  | c :: rest => c ≠ '_' && underscoresOkAux c rest

/-- Finite-float grammar of `float()` after sign, whitespace and
underscore handling: `digits [. digits] [e [sign] digits]`, where one of
the two digit groups may be empty (`1.` and `.5` are legal); the whole
input must be consumed. -/
def parseFiniteChars (cs : List Char) : Option Rat :=
  let intDigits := cs.takeWhile Char.isDigit
  let cs1 := cs.dropWhile Char.isDigit
  let (fracDigits, cs2) : List Char × List Char :=
    match cs1 with
    | '.' :: rest => (rest.takeWhile Char.isDigit, rest.dropWhile Char.isDigit)
    | _ => ([], cs1)
  if intDigits = [] ∧ fracDigits = [] then none
  else
    let mantissa : Rat :=
      if fracDigits = [] then (digitsToNat intDigits : Rat)
      else (digitsToNat intDigits : Rat) +
        (digitsToNat fracDigits : Rat) / ((10 : Rat) ^ fracDigits.length)
    match cs2 with
    | 'e' :: rest | 'E' :: rest =>
      let (esign, rest2) : Int × List Char :=
        match rest with
        | '-' :: r => (-1, r)
        | '+' :: r => (1, r)
        | _ => (1, rest)
      let eDigits := rest2.takeWhile Char.isDigit
      let rest3 := rest2.dropWhile Char.isDigit
      if eDigits = [] ∨ rest3 ≠ [] then none
      else some (mantissa * (10 : Rat) ^ (esign * (digitsToNat eDigits : Int)))
    | [] => some mantissa
    | _ => none

/-- Python `float()` on a string.  Strings containing non-ASCII
characters are outside the modelled fragment (`unmodeled`).  Signed
`inf`/`infinity`/`nan` names (case-insensitive) succeed with a
non-finite value, as does a finite literal whose magnitude rounds past
the double range (C `strtod` saturates to infinity without raising).
Everything else either parses (`ok`, exact value) or is a `ValueError`
(`caught`). -/
def pyFloatOfStr (s : String) : FloatAttempt :=
  if s.data.any (fun c => 127 < c.toNat) then .unmodeled
  else
    let cs := ((s.data.dropWhile isPyStrWs).reverse.dropWhile isPyStrWs).reverse
    let (neg, core) : Bool × List Char :=
      match cs with
      | '-' :: r => (true, r)
      | '+' :: r => (false, r)
      | _ => (false, cs)
    let lower := core.map Char.toLower
    if lower = "inf".data ∨ lower = "infinity".data ∨ lower = "nan".data then
      .nonfinite
    else if underscoresOk core = false then .caught
    else
      match parseFiniteChars (core.filter (fun c => c ≠ '_')) with
      | none => .caught
      | some q =>
        if (2 ^ 1024 - 2 ^ 970) * q.den ≤ q.num.natAbs then .nonfinite
        else .ok (if neg then -q else q)

/-- Python `float(x)` over decoded values: floats pass through, ints
convert (`OverflowError` outside the double range), booleans give 0/1,
strings go through the string grammar; `None`, lists and dicts raise
`TypeError`. -/
def pyFloat : JsonVal → FloatAttempt
  | .num q => .ok q
  | .int n => if pyIntFloatOverflows n then .overflow else .ok (n : Rat)
  | .bool b => .ok (if b then 1 else 0)
  | .str s => pyFloatOfStr s
  | .null => .caught
  | .arr _ => .caught
  | .obj _ => .caught

/-- Whitespace accepted between JSON tokens. -/
def isWsChar (c : Char) : Bool := c = ' ' ∨ c = '\t' ∨ c = '\n' ∨ c = '\r'

/-- Skips inter-token whitespace. -/
def skipWs (cs : List Char) : List Char := cs.dropWhile isWsChar

/-- Value of a hexadecimal digit. -/
def hexVal (c : Char) : Option Nat :=
  if '0' ≤ c ∧ c ≤ '9' then some (c.toNat - 48)
  else if 'a' ≤ c ∧ c ≤ 'f' then some (c.toNat - 87)
  else if 'A' ≤ c ∧ c ≤ 'F' then some (c.toNat - 55)
  else none

/-- Body of a JSON string literal after the opening quote: yields the
decoded characters and the input after the closing quote.  Escapes cover
the JSON escape set; `\u` takes four hex digits. -/
def parseStrChars : List Char → Option (List Char × List Char)
  | [] => none
  | '"' :: rest => some ([], rest)
  | '\\' :: esc =>
    match esc with
    | '"' :: rest => (parseStrChars rest).map (fun p => ('"' :: p.1, p.2))
    | '\\' :: rest => (parseStrChars rest).map (fun p => ('\\' :: p.1, p.2))
    | '/' :: rest => (parseStrChars rest).map (fun p => ('/' :: p.1, p.2))
    | 'b' :: rest => (parseStrChars rest).map (fun p => ('\x08' :: p.1, p.2))
    | 'f' :: rest => (parseStrChars rest).map (fun p => ('\x0c' :: p.1, p.2))
    | 'n' :: rest => (parseStrChars rest).map (fun p => ('\n' :: p.1, p.2))
    | 'r' :: rest => (parseStrChars rest).map (fun p => ('\r' :: p.1, p.2))
    | 't' :: rest => (parseStrChars rest).map (fun p => ('\t' :: p.1, p.2))
    | 'u' :: h1 :: h2 :: h3 :: h4 :: rest =>
      match hexVal h1, hexVal h2, hexVal h3, hexVal h4 with
      | some a, some b, some c, some d =>
        (parseStrChars rest).map
          (fun p => (Char.ofNat (((a * 16 + b) * 16 + c) * 16 + d) :: p.1, p.2))
      | _, _, _, _ => none
    | _ => none
  | c :: rest => (parseStrChars rest).map (fun p => (c :: p.1, p.2))

/-- JSON number token: optional minus, digits, optional fraction,
optional exponent.  `json.loads` yields a Python `int` for a plain
integer literal and a float when a fraction or exponent is present. -/
def parseNumChars (cs : List Char) : Option (JsonVal × List Char) :=
  let (neg, cs1) : Bool × List Char :=
    match cs with
    | '-' :: r => (true, r)
    | _ => (false, cs)
  let intD := cs1.takeWhile Char.isDigit
  let cs2 := cs1.dropWhile Char.isDigit
  if intD = [] then none
  else
    let (hasFrac, fracD, cs3) : Bool × List Char × List Char :=
      match cs2 with
      | '.' :: r => (true, r.takeWhile Char.isDigit, r.dropWhile Char.isDigit)
      | _ => (false, [], cs2)
    if hasFrac ∧ fracD = [] then none
    else
      let mantissa : Rat :=
        if fracD = [] then (digitsToNat intD : Rat)
        else (digitsToNat intD : Rat) + (digitsToNat fracD : Rat) / ((10 : Rat) ^ fracD.length)
      match cs3 with
      | 'e' :: r | 'E' :: r =>
        let (esign, r2) : Int × List Char :=
          match r with
          | '-' :: rr => (-1, rr)
          | '+' :: rr => (1, rr)
          | _ => (1, r)
        let eD := r2.takeWhile Char.isDigit
        let r3 := r2.dropWhile Char.isDigit
        if eD = [] then none
        else
          some (.num (if neg then -(mantissa * (10 : Rat) ^ (esign * (digitsToNat eD : Int)))
                      else mantissa * (10 : Rat) ^ (esign * (digitsToNat eD : Int))), r3)
      | _ =>
        if hasFrac then some (.num (if neg then -mantissa else mantissa), cs3)
        else
          some (.int (if neg then -(digitsToNat intD : Int)
                      else (digitsToNat intD : Int)), cs3)

/-- Python dict assignment `d[k] = v`: updates the binding in place when
the key exists, appends it otherwise. -/
def dictSet : List (String × JsonVal) → String → JsonVal → List (String × JsonVal)
  | [], k, v => [(k, v)]
  | (k', v') :: rest, k, v =>
    if k' = k then (k', v) :: rest else (k', v') :: dictSet rest k v

/-- Folds raw key/value pairs into a dict, so a duplicated key keeps its
first position and its last value, as `json.loads` builds Python dicts. -/
def dedupKeys (kvs : List (String × JsonVal)) : List (String × JsonVal) :=
  kvs.foldl (fun acc kv => dictSet acc kv.1 kv.2) []

mutual

/-- JSON value parser with explicit fuel (for termination); fuel never
runs out when it starts at twice the input length plus a constant. -/
def parseVal : Nat → List Char → Option (JsonVal × List Char)
  | 0, _ => none
  | fuel + 1, cs =>
    match skipWs cs with
    | 'n' :: 'u' :: 'l' :: 'l' :: rest => some (.null, rest)
    | 't' :: 'r' :: 'u' :: 'e' :: rest => some (.bool true, rest)
    | 'f' :: 'a' :: 'l' :: 's' :: 'e' :: rest => some (.bool false, rest)
    | '"' :: rest => (parseStrChars rest).map (fun p => (.str (String.mk p.1), p.2))
    | '[' :: rest =>
      match skipWs rest with
      | ']' :: rest2 => some (.arr [], rest2)
      | rest2 => (parseItems fuel rest2).map (fun p => (.arr p.1, p.2))
    | '\x7b' :: rest =>
      match skipWs rest with
      | '\x7d' :: rest2 => some (.obj [], rest2)
      | rest2 => (parseMembers fuel rest2).map (fun p => (.obj (dedupKeys p.1), p.2))
    | other => parseNumChars other

/-- Comma-separated JSON values up to a closing bracket. -/
def parseItems : Nat → List Char → Option (List JsonVal × List Char)
  | 0, _ => none
  | fuel + 1, cs =>
    match parseVal fuel cs with
    | none => none
    | some (v, rest) =>
      match skipWs rest with
      | ',' :: rest2 => (parseItems fuel rest2).map (fun p => (v :: p.1, p.2))
      | ']' :: rest2 => some ([v], rest2)
      | _ => none

/-- Comma-separated `"key": value` members up to a closing brace. -/
def parseMembers : Nat → List Char → Option (List (String × JsonVal) × List Char)
  | 0, _ => none
  | fuel + 1, cs =>
    match skipWs cs with
    | '"' :: rest =>
      match parseStrChars rest with
      | none => none
      | some (k, rest2) =>
        match skipWs rest2 with
        | ':' :: rest3 =>
          match parseVal fuel rest3 with
          | none => none
          | some (v, rest4) =>
            match skipWs rest4 with
            | ',' :: rest5 =>
              (parseMembers fuel rest5).map (fun p => ((String.mk k, v) :: p.1, p.2))
            | '\x7d' :: rest5 => some ([(String.mk k, v)], rest5)
            | _ => none
        | _ => none
    | _ => none

end

/-- Python `json.loads`: parses the whole string as one JSON value
(trailing whitespace allowed), `none` models `json.JSONDecodeError`.
Non-finite literals (`NaN`, `Infinity`) are out of scope. -/
def jsonLoads (s : String) : Option JsonVal :=
  match parseVal (2 * s.length + 4) s.data with
  | some (v, rest) => if skipWs rest = [] then some v else none
  | none => none

/-- First `n` characters of a string, Python `s[:n]`. -/
def strTake (s : String) (n : Nat) : String := String.mk (s.data.take n)

/-- Outcome of the upstream HTTP response as seen by the handler:
status code, reason phrase, result of `response.json()` (`none` models a
`json.JSONDecodeError`), and the body text used by `response.text`. -/
structure HttpResponse where
  status : Nat
  reason : String
  jsonBody : Option JsonVal
  text : String

/-- Oracle for the single `requests.post` call: either the transport
raises (connection errors and the like), or a response arrives. -/
inductive HttpOutcome where
  | transportError : String → HttpOutcome
  | ok : HttpResponse → HttpOutcome

/-- Return value of `call_gemini_api`: the Python dict it returns, the
paired HTTP status, and how many outbound `requests.post` calls were
issued during the invocation. -/
structure GeminiResult where
  body : JsonVal
  status : Nat
  postCount : Nat

/-- Extraction `result.get('candidates')[0]['content']['parts'][0]['text']`;
`none` models any raised `TypeError`/`KeyError`/`IndexError`/`AttributeError`
along the chain. -/
def extractText (result : JsonVal) : Option JsonVal := do
  let c ← match result with
          | .obj kvs => some (pyGetD kvs "candidates" .null)
          | _ => none
  let c0 ← pyIndexNat c 0
  let content ← pyIndexStr c0 "content"
  let parts ← pyIndexStr content "parts"
  let p0 ← pyIndexNat parts 0
  pyIndexStr p0 "text"

/-- Error envelope `\x7b"error": msg\x7d`. -/
def errObj (msg : String) : JsonVal := .obj [("error", .str msg)]

/-- Body of the `except requests.exceptions.HTTPError` handler: the
`details` value extracted from the upstream error body.  A non-dict step
or a failing `in` test raises inside the handler and is caught by the
inner `except Exception`, whose message is modelled by a fixed string. -/
def httpErrorDetails (status : Nat) (jsonBody : Option JsonVal) (text : String) : JsonVal :=
  match jsonBody with
  | none => .str ("Non-JSON error response from Google API: " ++ strTake text 100 ++ "...")
  | some gj =>
    let step : Option JsonVal := do
      let e ← match gj with
              | .obj kvs => some (pyGetD kvs "error" (.obj []))
              | _ => none
      let m ← match e with
              | .obj ekvs => some (pyGetD ekvs "message" (.str "No specific message from API."))
              | _ => none
      let hit ← pyInStr "API_KEY_INVALID" m
      some (if hit || status == 403 then
              .str "Invalid API Key or API not enabled. Check your .env file and Google Cloud status."
            else m)
    match step with
    | some d => d
    | none => .str "Unexpected error during error handling: TypeError"

/-- Shallow embedding of `call_gemini_api`.  `keyConfigured` models
`GEMINI_API_KEY` being set; `outcome` is the oracle for the one
`requests.post` call.  `raise_for_status` raises exactly on statuses in
[400, 600); every other raised exception lands in the final
`except Exception` branch, whose message is abstracted to the exception
class name. -/
def call_gemini_api (keyConfigured : Bool) (outcome : HttpOutcome) : GeminiResult :=
  if keyConfigured = false then
    ⟨errObj "API Key not configured in the server. Check .env file.", 500, 0⟩
  else
    match outcome with
    | .transportError msg =>
      ⟨errObj ("Internal server error: " ++ msg), 500, 1⟩
    | .ok r =>
      if 400 ≤ r.status ∧ r.status < 600 then
        ⟨.obj [("error", .str ("API call failed: " ++ toString r.status ++ " " ++ r.reason)),
               ("details", httpErrorDetails r.status r.jsonBody r.text)],
         r.status, 1⟩
      else
        match r.jsonBody with
        | none => ⟨errObj "Internal server error: JSONDecodeError", 500, 1⟩
        | some result =>
          match extractText result with
          | none => ⟨errObj "Internal server error: TypeError", 500, 1⟩
          | some content => ⟨.obj [("content", content)], 200, 1⟩

/-- Row of the `budgets` table: the request values bound to the INSERT,
the serialized plan, and the `created_at` timestamp filled by the
`DEFAULT CURRENT_TIMESTAMP` column (a parameter of the handler model).
Row ids are positions: the row with the highest id is the last one. -/
structure BudgetRow where
  income : JsonVal
  expenses : JsonVal
  goal : JsonVal
  plan_json : String
  created_at : String

/-- Row of the `transactions` table, holding the four values the handler
binds to the INSERT statement. -/
structure TransRow where
  date : JsonVal
  description : JsonVal
  amount : JsonVal
  category : JsonVal

/-- The two tables of `finance_data.db`. -/
structure DbState where
  budgets : List BudgetRow
  transactions : List TransRow

/-- Response of a handler (status, JSON body) together with the database
state after the request (commits applied, uncommitted work rolled back
by the teardown). -/
structure HandlerResult where
  status : Nat
  body : JsonVal
  db : DbState

/-- Value shown to the frontend on a failed Gemini call:
`response.get('details', response.get('error', '...'))`. -/
def frontendError : JsonVal → JsonVal
  | .obj kvs => pyGetD kvs "details" (pyGetD kvs "error" (.str "API processing error occurred."))
  | v => v

/-- POST `/api/budget` (`generate_budget`).  `body` is the parsed request
JSON object, `now` the `created_at` timestamp the database column fills,
`keyConfigured`/`outcome` the Gemini-call environment.  The decode of a
non-string `content` raises a `TypeError` in `json.loads`, caught by the
final `except Exception` branch. -/
def generate_budget (db : DbState) (now : String) (keyConfigured : Bool)
    (outcome : HttpOutcome) (body : List (String × JsonVal)) : HandlerResult :=
  if !(pyTruthy ((pyGet body "income").getD .null) &&
       pyTruthy ((pyGet body "expenses").getD .null) &&
       pyTruthy ((pyGet body "goal").getD .null)) then
    ⟨400, errObj "Missing income, expenses, or goal.", db⟩
  else
    if (call_gemini_api keyConfigured outcome).status ≠ 200 then
      ⟨500, .obj [("error", frontendError (call_gemini_api keyConfigured outcome).body)], db⟩
    else
      match pyIndexStr (call_gemini_api keyConfigured outcome).body "content" with
      | some (.str planStr) =>
        match jsonLoads planStr with
        | some planData =>
          ⟨200,
           .obj [("message", .str "Budget plan generated and saved."), ("plan", planData)],
           ⟨db.budgets ++
              [⟨(pyGet body "income").getD .null, (pyGet body "expenses").getD .null,
                (pyGet body "goal").getD .null, planStr, now⟩],
            db.transactions⟩⟩
        | none => ⟨500, errObj "AI returned invalid JSON format.", db⟩
      | some _ => ⟨500, errObj "Internal server error: TypeError", db⟩
      | none => ⟨500, errObj "Internal server error: KeyError", db⟩

/-- GET `/api/budget` (`get_budget`).  `ORDER BY id DESC LIMIT 1` picks
the last row.  `none` models the handler raising (uncaught
`json.JSONDecodeError` when the stored `plan_json` does not parse), which
never happens for rows written by `generate_budget`. -/
def get_budget (db : DbState) : Option HandlerResult :=
  match db.budgets.getLast? with
  | none => some ⟨404, .obj [("message", .str "No budget plan found.")], db⟩
  | some b =>
    match jsonLoads b.plan_json with
    | none => none
    | some plan =>
      some ⟨200, .obj [("plan", plan), ("created_at", .str b.created_at)], db⟩

/-- POST `/api/chat` (`chat`).  `none` models an uncaught exception at
`response['content']` (outside any try block), which never happens when
the Gemini call reported status 200. -/
def chat (db : DbState) (keyConfigured : Bool) (outcome : HttpOutcome)
    (body : List (String × JsonVal)) : Option HandlerResult :=
  if !(pyTruthy ((pyGet body "message").getD .null)) then
    some ⟨400, errObj "Message is required.", db⟩
  else
    if (call_gemini_api keyConfigured outcome).status ≠ 200 then
      some ⟨500, .obj [("error", frontendError (call_gemini_api keyConfigured outcome).body)], db⟩
    else
      match pyIndexStr (call_gemini_api keyConfigured outcome).body "content" with
      | some content => some ⟨200, .obj [("reply", content)], db⟩
      | none => none

/-- Python iteration `for t in x`: lists yield their elements, dicts
their keys, strings their characters as one-character strings; other
values raise a `TypeError` (`none`). -/
def iterElems : JsonVal → Option (List JsonVal)
  | .arr xs => some xs
  | .obj kvs => some (kvs.map (fun kv => .str kv.1))
  | .str s => some (s.data.map (fun c => .str (String.singleton c)))
  | _ => none

/-- Amount bound for one decoded element: the result of the guarded
`float(t.get('amount', 0))`.  A caught `ValueError`/`TypeError` is
replaced by 0.0.  `none` models an `OverflowError` escaping the
`except (ValueError, TypeError)` clause and aborting the iteration.
The values of non-finite floats and of strings outside the modelled
fragment are out of scope and idealized as 0; their conversion succeeds
or is caught, so a row is bound either way. -/
def rowAmountVal (kvs : List (String × JsonVal)) : Option Rat :=
  match pyFloat (pyGetD kvs "amount" (.int 0)) with
  | .ok q => some q
  | .caught => some 0
  | .nonfinite => some 0
  | .unmodeled => some 0
  | .overflow => none

/-- One iteration of the upload loop: the tuple of values bound to the
`INSERT INTO transactions` statement for a decoded element `t`.  `none`
models an exception that escapes to the handler's final
`except Exception`: an `AttributeError` at `t.get` on a non-dict
element, or an `OverflowError` from `float()` on an out-of-range
integer amount.  A falsy or missing `date` is replaced by the current
date; `description` and `category` default only when the key is
absent. -/
def rowOfTrans (now : String) (t : JsonVal) : Option TransRow :=
  match t with
  | .obj kvs =>
    match rowAmountVal kvs with
    | none => none
    | some a =>
      some ⟨(if pyTruthy ((pyGet kvs "date").getD .null)
             then (pyGet kvs "date").getD .null else .str now),
            pyGetD kvs "description" (.str "Unknown Description"),
            .num a,
            pyGetD kvs "category" (.str "Miscellaneous")⟩
  | _ => none

/-- POST `/api/upload` (`upload_transactions`).  `csvPart` is
`request.files['csv_file']` as an optional (filename, decoded text) pair.
When any loop iteration raises, the uncommitted inserts are rolled back
by the teardown, so the database is unchanged on the error branch. -/
def upload_transactions (db : DbState) (now : String) (keyConfigured : Bool)
    (outcome : HttpOutcome) (csvPart : Option (String × String)) : HandlerResult :=
  match csvPart with
  | none => ⟨400, errObj "No CSV file part.", db⟩
  | some (filename, _csvData) =>
    if filename = "" then
      ⟨400, errObj "No selected file.", db⟩
    else
      if (call_gemini_api keyConfigured outcome).status ≠ 200 then
        ⟨500, .obj [("error", frontendError (call_gemini_api keyConfigured outcome).body)], db⟩
      else
        match pyIndexStr (call_gemini_api keyConfigured outcome).body "content" with
        | some (.str categorizedStr) =>
          match jsonLoads categorizedStr with
          | some categorized =>
            match iterElems categorized with
            | none => ⟨500, errObj "Internal server error: TypeError", db⟩
            | some elems =>
              match elems.mapM (rowOfTrans now) with
              | none => ⟨500, errObj "Internal server error: exception in transaction loop", db⟩
              | some rows =>
                ⟨200,
                 .obj [("message",
                        .str (toString elems.length ++ " transactions categorized and saved.")),
                       ("transactions", categorized)],
                 ⟨db.budgets, db.transactions ++ rows⟩⟩
          | none => ⟨500, errObj "AI returned invalid JSON format.", db⟩
        | some _ => ⟨500, errObj "Internal server error: TypeError", db⟩
        | none => ⟨500, errObj "Internal server error: KeyError", db⟩

/-- Comparison used by `ORDER BY date DESC` on the stored date values:
sqlite orders nulls before numbers before texts; the stored values here
are the bound Python values, with booleans stored as integers. -/
def sqliteClass : JsonVal → Nat
  | .null => 0
  | .bool _ => 1
  | .int _ => 1
  | .num _ => 1
  | .str _ => 2
  | .arr _ => 3
  | .obj _ => 3

/-- Numeric value of a stored numeric-class value. -/
def sqliteNumVal : JsonVal → Rat
  | .bool b => if b then 1 else 0
  | .int n => (n : Rat)
  | .num q => q
  | _ => 0

/-- String value of a stored text-class value. -/
def sqliteStrVal : JsonVal → String
  | .str s => s
  | _ => ""

/-- The `a ≤ b` test of the sqlite ordering on stored values. -/
def sqliteLe (a b : JsonVal) : Bool :=
  if sqliteClass a ≠ sqliteClass b then sqliteClass a < sqliteClass b
  else if sqliteClass a = 1 then sqliteNumVal a ≤ sqliteNumVal b
  else if sqliteClass a = 2 then sqliteStrVal a ≤ sqliteStrVal b
  else true

/-- Insertion into a list kept in descending date order. -/
def insertByDateDesc (r : Nat × TransRow) : List (Nat × TransRow) → List (Nat × TransRow)
  | [] => [r]
  | x :: xs =>
    if sqliteLe x.2.date r.2.date then r :: x :: xs else x :: insertByDateDesc r xs

/-- Rows with their ids (positions, starting at 1), sorted by date
descending as `ORDER BY date DESC` returns them. -/
def orderByDateDesc (rows : List TransRow) : List (Nat × TransRow) :=
  ((rows.enum.map (fun ir => (ir.1 + 1, ir.2))).foldl (fun acc r => insertByDateDesc r acc) [])

/-- The JSON object `dict(row)` for one fetched transactions row. -/
def transRowToJson (ir : Nat × TransRow) : JsonVal :=
  .obj [("id", .int (ir.1 : Int)), ("date", ir.2.date), ("description", ir.2.description),
        ("amount", ir.2.amount), ("category", ir.2.category)]

/-- GET `/api/transactions` (`get_transactions`): always a 200 listing
every stored row. -/
def get_transactions (db : DbState) : HandlerResult :=
  ⟨200,
   .obj [("transactions", .arr ((orderByDateDesc db.transactions).map transRowToJson))],
   db⟩

/-- Test whether a JSON value is an object containing the given key. -/
def hasKey (v : JsonVal) (k : String) : Bool :=
  match v with
  | .obj kvs => kvs.any (fun kv => kv.1 = k)
  | _ => false

/-- Empty database, the state right after `init_db`. -/
def emptyDb : DbState := ⟨[], []⟩

/-- Upstream 200 response whose single candidate carries the given text. -/
def planResp (text : String) : HttpResponse :=
  ⟨200, "OK",
   some (.obj [("candidates", .arr [.obj [("content",
     .obj [("parts", .arr [.obj [("text", .str text)]])])]])]),
   "raw"⟩

/-- Upstream 403 response with an empty JSON body. -/
def forbiddenResp : HttpResponse := ⟨403, "Forbidden", some (.obj []), "denied"⟩

/-- Request body for `/api/budget` with all three fields present and truthy. -/
def budgetBody1 : List (String × JsonVal) :=
  [("income", .num 100), ("expenses", .num 50), ("goal", .str "car")]

/-- Unfolding of `call_gemini_api` for a configured key and a delivered
response, by definitional reduction. -/
theorem call_gemini_api_ok (r : HttpResponse) :
    call_gemini_api true (.ok r) =
      (if 400 ≤ r.status ∧ r.status < 600 then
        (⟨.obj [("error", .str ("API call failed: " ++ toString r.status ++ " " ++ r.reason)),
               ("details", httpErrorDetails r.status r.jsonBody r.text)],
          r.status, 1⟩ : GeminiResult)
      else
        match r.jsonBody with
        | none => ⟨errObj "Internal server error: JSONDecodeError", 500, 1⟩
        | some result =>
          match extractText result with
          | none => ⟨errObj "Internal server error: TypeError", 500, 1⟩
          | some content => ⟨.obj [("content", content)], 200, 1⟩) := rfl

/-- C8: at most one outbound HTTP request per `call_gemini_api`
invocation, and no retry after a failure: every branch of the function,
success or failure, issues at most one `requests.post`. -/
theorem C8_theorem (keyConfigured : Bool) (outcome : HttpOutcome) :
    (call_gemini_api keyConfigured outcome).postCount ≤ 1 := by
  unfold call_gemini_api
  repeat' split
  all_goals simp

/-- C3: `call_gemini_api` is total and maps every failure to a dict with
an `error` key paired with a non-200 status; an upstream HTTP-status
error (status in [400, 600), where `raise_for_status` raises) yields the
upstream status code, and every other failure — missing key, transport
error, malformed upstream JSON, failed candidate extraction — yields 500.
The only other possibility is the 200 success carrying `content`. -/
theorem C3_theorem (keyConfigured : Bool) (outcome : HttpOutcome) :
    ((call_gemini_api keyConfigured outcome).status = 200 ∧
      hasKey (call_gemini_api keyConfigured outcome).body "content" = true) ∨
    (hasKey (call_gemini_api keyConfigured outcome).body "error" = true ∧
      (call_gemini_api keyConfigured outcome).status ≠ 200 ∧
      ((∃ r, outcome = .ok r ∧ 400 ≤ r.status ∧ r.status < 600 ∧
          (call_gemini_api keyConfigured outcome).status = r.status) ∨
        (call_gemini_api keyConfigured outcome).status = 500)) := by
  unfold call_gemini_api
  split
  · exact Or.inr ⟨rfl, by show (500:Nat) ≠ 200; decide, Or.inr rfl⟩
  · split
    · exact Or.inr ⟨rfl, by show (500:Nat) ≠ 200; decide, Or.inr rfl⟩
    · rename_i r
      split
      · rename_i hr
        exact Or.inr ⟨rfl, by show r.status ≠ 200; omega,
          Or.inl ⟨r, rfl, hr.1, hr.2, rfl⟩⟩
      · split
        · exact Or.inr ⟨rfl, by show (500:Nat) ≠ 200; decide, Or.inr rfl⟩
        · split
          · exact Or.inr ⟨rfl, by show (500:Nat) ≠ 200; decide, Or.inr rfl⟩
          · exact Or.inl ⟨rfl, rfl⟩

/-- Unfolding of `call_gemini_api` when `raise_for_status` raises: the
envelope carries the upstream status code. -/
theorem call_gemini_api_httpError (r : HttpResponse)
    (h1 : 400 ≤ r.status) (h2 : r.status < 600) :
    call_gemini_api true (.ok r) =
      ⟨.obj [("error", .str ("API call failed: " ++ toString r.status ++ " " ++ r.reason)),
             ("details", httpErrorDetails r.status r.jsonBody r.text)],
       r.status, 1⟩ := by
  rw [call_gemini_api_ok, if_pos ⟨h1, h2⟩]

/-- Behaviour of `generate_budget` when validation passes and the Gemini
call reports a non-200 status: a 500 envelope, no database change. -/
theorem generate_budget_gemini_fail (db : DbState) (now : String) (kc : Bool)
    (outcome : HttpOutcome) (body : List (String × JsonVal))
    (hv : (pyTruthy ((pyGet body "income").getD .null) &&
           pyTruthy ((pyGet body "expenses").getD .null) &&
           pyTruthy ((pyGet body "goal").getD .null)) = true)
    (hs : (call_gemini_api kc outcome).status ≠ 200) :
    generate_budget db now kc outcome body =
      ⟨500, .obj [("error", frontendError (call_gemini_api kc outcome).body)], db⟩ := by
  unfold generate_budget
  rw [hv]
  simp only [Bool.not_true, Bool.false_eq_true, if_false]
  rw [if_pos hs]

/-- Behaviour of `chat` when validation passes and the Gemini call
reports a non-200 status: a 500 envelope, no database change. -/
theorem chat_gemini_fail (db : DbState) (kc : Bool) (outcome : HttpOutcome)
    (cbody : List (String × JsonVal))
    (hm : pyTruthy ((pyGet cbody "message").getD .null) = true)
    (hs : (call_gemini_api kc outcome).status ≠ 200) :
    chat db kc outcome cbody =
      some ⟨500, .obj [("error", frontendError (call_gemini_api kc outcome).body)], db⟩ := by
  unfold chat
  rw [hm]
  simp only [Bool.not_true, Bool.false_eq_true, if_false]
  rw [if_pos hs]

/-- C1 (counterexample): for a request with all fields present and an
upstream 403 HTTP-status error, `call_gemini_api` reports 403 but both
endpoints answer 500 — the endpoint status does not match the upstream
status code. -/
theorem C1_counterexample :
    (call_gemini_api true (.ok forbiddenResp)).status = 403 ∧
    400 ≤ forbiddenResp.status ∧ forbiddenResp.status < 600 ∧
    (generate_budget emptyDb "2026-10-12" true (.ok forbiddenResp) budgetBody1).status = 500 ∧
    (generate_budget emptyDb "2026-10-12" true (.ok forbiddenResp) budgetBody1).status ≠ 403 ∧
    (chat emptyDb true (.ok forbiddenResp) [("message", .str "hi")]).map
      HandlerResult.status = some 500 :=
  ⟨rfl, by decide, by decide, rfl, by decide, rfl⟩

/-- C1 (amended): when a POST to `/api/budget` or `/api/chat` passes
validation and the outbound Gemini call fails with an HTTP-status error,
the endpoint responds with a JSON error envelope, but always with HTTP
status 500: the matching upstream status produced by `call_gemini_api`
is replaced by 500 at both call sites. -/
theorem C1_theorem (db : DbState) (now : String) (r : HttpResponse)
    (body cbody : List (String × JsonVal))
    (hr1 : 400 ≤ r.status) (hr2 : r.status < 600)
    (hi : pyTruthy ((pyGet body "income").getD .null) = true)
    (he : pyTruthy ((pyGet body "expenses").getD .null) = true)
    (hg : pyTruthy ((pyGet body "goal").getD .null) = true)
    (hm : pyTruthy ((pyGet cbody "message").getD .null) = true) :
    (generate_budget db now true (.ok r) body).status = 500 ∧
    hasKey (generate_budget db now true (.ok r) body).body "error" = true ∧
    (generate_budget db now true (.ok r) body).db = db ∧
    (chat db true (.ok r) cbody).map HandlerResult.status = some 500 ∧
    (chat db true (.ok r) cbody).map (fun h => hasKey h.body "error") = some true := by
  have hcall := call_gemini_api_httpError r hr1 hr2
  have hs : (call_gemini_api true (.ok r)).status ≠ 200 := by
    rw [hcall]; show r.status ≠ 200; omega
  have hgb := generate_budget_gemini_fail db now true (.ok r) body
    (by rw [hi, he, hg]; rfl) hs
  have hch := chat_gemini_fail db true (.ok r) cbody hm hs
  rw [hgb, hch]
  exact ⟨rfl, rfl, rfl, rfl, rfl⟩

/-- C1 (witness): the amended statement at the concrete 403 input. -/
theorem C1_witness :
    (generate_budget emptyDb "2026-10-12" true (.ok forbiddenResp) budgetBody1).status = 500 ∧
    hasKey (generate_budget emptyDb "2026-10-12" true (.ok forbiddenResp) budgetBody1).body
      "error" = true ∧
    (generate_budget emptyDb "2026-10-12" true (.ok forbiddenResp) budgetBody1).db = emptyDb ∧
    (chat emptyDb true (.ok forbiddenResp) [("message", .str "hi")]).map
      HandlerResult.status = some 500 ∧
    (chat emptyDb true (.ok forbiddenResp) [("message", .str "hi")]).map
      (fun h => hasKey h.body "error") = some true :=
  C1_theorem emptyDb "2026-10-12" forbiddenResp budgetBody1 [("message", .str "hi")]
    (by decide) (by decide) rfl rfl rfl rfl

/-- Request body for `/api/budget` in which every field is present but
`income` is the (falsy) number 0. -/
def zeroIncomeBody : List (String × JsonVal) :=
  [("income", .num 0), ("expenses", .num 50), ("goal", .str "car")]

/-- Behaviour of `generate_budget` when the truthiness check fails:
the 400 validation envelope, database untouched. -/
theorem generate_budget_validation_fail (db : DbState) (now : String) (kc : Bool)
    (outcome : HttpOutcome) (body : List (String × JsonVal))
    (hv : (pyTruthy ((pyGet body "income").getD .null) &&
           pyTruthy ((pyGet body "expenses").getD .null) &&
           pyTruthy ((pyGet body "goal").getD .null)) = false) :
    generate_budget db now kc outcome body =
      ⟨400, errObj "Missing income, expenses, or goal.", db⟩ := by
  unfold generate_budget
  rw [hv]
  rfl

/-- Status of `generate_budget` is never 400 once the truthiness check
passes: every later branch answers 500 or 200. -/
theorem generate_budget_pass_not_400 (db : DbState) (now : String) (kc : Bool)
    (outcome : HttpOutcome) (body : List (String × JsonVal))
    (hv : (pyTruthy ((pyGet body "income").getD .null) &&
           pyTruthy ((pyGet body "expenses").getD .null) &&
           pyTruthy ((pyGet body "goal").getD .null)) = true) :
    (generate_budget db now kc outcome body).status ≠ 400 := by
  unfold generate_budget
  rw [hv]
  simp only [Bool.not_true, Bool.false_eq_true, if_false]
  repeat' split
  all_goals simp

/-- Status of `chat` is never 400 once the message is truthy. -/
theorem chat_pass_not_400 (db : DbState) (kc : Bool) (outcome : HttpOutcome)
    (cbody : List (String × JsonVal))
    (hm : pyTruthy ((pyGet cbody "message").getD .null) = true) :
    (chat db kc outcome cbody).map HandlerResult.status ≠ some 400 := by
  unfold chat
  rw [hm]
  simp only [Bool.not_true, Bool.false_eq_true, if_false]
  repeat' split
  all_goals simp

/-- C2 (counterexample): a request whose `income`, `expenses` and `goal`
keys are all present, with `income = 0`, is still answered 400 — presence
of the fields does not prevent the validation failure, because the check
uses Python truthiness. -/
theorem C2_counterexample :
    (pyGet zeroIncomeBody "income").isSome = true ∧
    (pyGet zeroIncomeBody "expenses").isSome = true ∧
    (pyGet zeroIncomeBody "goal").isSome = true ∧
    (generate_budget emptyDb "2026-10-12" true (.ok (planResp "\x7b\x7d"))
        zeroIncomeBody).status = 400 :=
  ⟨rfl, rfl, rfl, rfl⟩

/-- C2 (amended): POST `/api/budget` answers 400 exactly when at least
one of `income`, `expenses`, `goal` is missing **or falsy** (null, 0,
false, empty string/array/object), and POST `/api/chat` answers 400
exactly when `message` is missing or falsy; the 400 body is the fixed
validation error envelope in both cases. -/
theorem C2_theorem (db : DbState) (now : String) (kc : Bool) (outcome : HttpOutcome)
    (body cbody : List (String × JsonVal)) :
    ((generate_budget db now kc outcome body).status = 400 ↔
      ¬(pyTruthy ((pyGet body "income").getD .null) = true ∧
        pyTruthy ((pyGet body "expenses").getD .null) = true ∧
        pyTruthy ((pyGet body "goal").getD .null) = true)) ∧
    ((generate_budget db now kc outcome body).status = 400 →
      (generate_budget db now kc outcome body).body =
        errObj "Missing income, expenses, or goal.") ∧
    ((chat db kc outcome cbody).map HandlerResult.status = some 400 ↔
      ¬(pyTruthy ((pyGet cbody "message").getD .null) = true)) ∧
    ((chat db kc outcome cbody).map HandlerResult.status = some 400 →
      (chat db kc outcome cbody).map HandlerResult.body =
        some (errObj "Message is required.")) := by
  by_cases hv : (pyTruthy ((pyGet body "income").getD .null) &&
      pyTruthy ((pyGet body "expenses").getD .null) &&
      pyTruthy ((pyGet body "goal").getD .null)) = true
  case pos =>
    have h400 := generate_budget_pass_not_400 db now kc outcome body hv
    simp only [Bool.and_eq_true] at hv
    refine ⟨iff_of_false h400 (fun hcon => hcon ⟨hv.1.1, hv.1.2, hv.2⟩),
      fun h => absurd h h400, ?_, ?_⟩
    all_goals
      by_cases hm : pyTruthy ((pyGet cbody "message").getD .null) = true
    · exact iff_of_false (chat_pass_not_400 db kc outcome cbody hm) (fun hcon => hcon hm)
    · have hmf : pyTruthy ((pyGet cbody "message").getD .null) = false :=
        Bool.eq_false_iff.mpr hm
      have heq : chat db kc outcome cbody =
          some ⟨400, errObj "Message is required.", db⟩ := by
        unfold chat; rw [hmf]; rfl
      rw [heq]
      exact iff_of_true rfl hm
    · exact fun h => absurd h (chat_pass_not_400 db kc outcome cbody hm)
    · have hmf : pyTruthy ((pyGet cbody "message").getD .null) = false :=
        Bool.eq_false_iff.mpr hm
      have heq : chat db kc outcome cbody =
          some ⟨400, errObj "Message is required.", db⟩ := by
        unfold chat; rw [hmf]; rfl
      rw [heq]
      exact fun _ => rfl
  case neg =>
    have hvf := Bool.eq_false_iff.mpr hv
    have heq := generate_budget_validation_fail db now kc outcome body hvf
    rw [heq]
    have hneg : ¬(pyTruthy ((pyGet body "income").getD .null) = true ∧
        pyTruthy ((pyGet body "expenses").getD .null) = true ∧
        pyTruthy ((pyGet body "goal").getD .null) = true) := by
      intro hcon
      exact hv (by rw [hcon.1, hcon.2.1, hcon.2.2]; rfl)
    refine ⟨iff_of_true rfl hneg, fun _ => rfl, ?_, ?_⟩
    all_goals
      by_cases hm : pyTruthy ((pyGet cbody "message").getD .null) = true
    · exact iff_of_false (chat_pass_not_400 db kc outcome cbody hm) (fun hcon => hcon hm)
    · have hmf : pyTruthy ((pyGet cbody "message").getD .null) = false :=
        Bool.eq_false_iff.mpr hm
      have heqc : chat db kc outcome cbody =
          some ⟨400, errObj "Message is required.", db⟩ := by
        unfold chat; rw [hmf]; rfl
      rw [heqc]
      exact iff_of_true rfl hm
    · exact fun h => absurd h (chat_pass_not_400 db kc outcome cbody hm)
    · have hmf : pyTruthy ((pyGet cbody "message").getD .null) = false :=
        Bool.eq_false_iff.mpr hm
      have heqc : chat db kc outcome cbody =
          some ⟨400, errObj "Message is required.", db⟩ := by
        unfold chat; rw [hmf]; rfl
      rw [heqc]
      exact fun _ => rfl

/-- C2 (witness): the amended statement applied at a request missing
`expenses` and `goal`, and at a chat request missing `message`. -/
theorem C2_witness :
    (generate_budget emptyDb "2026-10-12" true (.ok forbiddenResp)
        [("income", .num 1)]).status = 400 ∧
    (chat emptyDb true (.ok forbiddenResp) []).map HandlerResult.body =
      some (errObj "Message is required.") :=
  ⟨(C2_theorem emptyDb "2026-10-12" true (.ok forbiddenResp) [("income", .num 1)] []).1.mpr
      (fun h => absurd h.2.1 (by decide)),
   (C2_theorem emptyDb "2026-10-12" true (.ok forbiddenResp) [("income", .num 1)] []).2.2.2 rfl⟩

/-- C4 (counterexample): a request in which `income`, `expenses` and
`goal` are all present (with `income = 0`), while the Gemini call would
return 200 with JSON-parseable content, is rejected with 400 and no row
is inserted — presence of the three fields is not sufficient. -/
theorem C4_counterexample :
    (pyGet zeroIncomeBody "income").isSome = true ∧
    (pyGet zeroIncomeBody "expenses").isSome = true ∧
    (pyGet zeroIncomeBody "goal").isSome = true ∧
    (call_gemini_api true (.ok (planResp "[1]"))).status = 200 ∧
    pyIndexStr (call_gemini_api true (.ok (planResp "[1]"))).body "content" =
      some (.str "[1]") ∧
    (jsonLoads "[1]").isSome = true ∧
    (generate_budget emptyDb "2026-10-12" true (.ok (planResp "[1]"))
        zeroIncomeBody).status = 400 ∧
    (generate_budget emptyDb "2026-10-12" true (.ok (planResp "[1]"))
        zeroIncomeBody).db.budgets.length = 0 :=
  ⟨rfl, rfl, rfl, rfl, rfl, rfl, rfl, rfl⟩

/-- C4 (amended): for every POST `/api/budget` request in which
`income`, `expenses` and `goal` are all present **and truthy**, if the
Gemini call reports 200 and its string content parses as JSON, exactly
one new row (income, expenses, goal, plan_json) is appended to the
budgets table and the response is HTTP 200 carrying the parsed plan. -/
theorem C4_theorem (db : DbState) (now : String) (kc : Bool) (outcome : HttpOutcome)
    (body : List (String × JsonVal)) (s : String) (plan : JsonVal)
    (hi : pyTruthy ((pyGet body "income").getD .null) = true)
    (he : pyTruthy ((pyGet body "expenses").getD .null) = true)
    (hg : pyTruthy ((pyGet body "goal").getD .null) = true)
    (hs : (call_gemini_api kc outcome).status = 200)
    (hc : pyIndexStr (call_gemini_api kc outcome).body "content" = some (.str s))
    (hp : jsonLoads s = some plan) :
    generate_budget db now kc outcome body =
      ⟨200,
       .obj [("message", .str "Budget plan generated and saved."), ("plan", plan)],
       ⟨db.budgets ++
          [⟨(pyGet body "income").getD .null, (pyGet body "expenses").getD .null,
            (pyGet body "goal").getD .null, s, now⟩],
        db.transactions⟩⟩ := by
  unfold generate_budget
  rw [hi, he, hg]
  simp only [Bool.and_self, Bool.not_true, Bool.false_eq_true, if_false]
  rw [if_neg (fun h => h hs)]
  simp only [hc, hp]

/-- C4 (witness): the amended statement at a concrete sunny-day input. -/
theorem C4_witness :
    generate_budget emptyDb "2026-10-12" true (.ok (planResp "\x7b\x7d")) budgetBody1 =
      ⟨200,
       .obj [("message", .str "Budget plan generated and saved."), ("plan", .obj [])],
       ⟨[⟨.num 100, .num 50, .str "car", "\x7b\x7d", "2026-10-12"⟩], []⟩⟩ :=
  C4_theorem emptyDb "2026-10-12" true (.ok (planResp "\x7b\x7d")) budgetBody1
    "\x7b\x7d" (.obj []) rfl rfl rfl rfl rfl rfl

/-- C5 (counterexample): with an empty budgets table, GET `/api/budget`
produces a non-200 response (404) whose JSON body has no `error` key —
it is `\x7b"message": "No budget plan found."\x7d`. -/
theorem C5_counterexample :
    (get_budget emptyDb).map HandlerResult.status = some 404 ∧
    (get_budget emptyDb).map (fun h => hasKey h.body "error") = some false ∧
    (get_budget emptyDb).map HandlerResult.body =
      some (.obj [("message", .str "No budget plan found.")]) :=
  ⟨rfl, rfl, rfl⟩

/-- C5 (amended): every non-200 response of the three POST handlers is a
JSON object with an `error` key; GET `/api/transactions` always answers
200; but the non-200 (404) response of GET `/api/budget` is the object
`\x7b"message": ...\x7d`, which carries no `error` key. -/
theorem C5_theorem (db : DbState) (now : String) (kc : Bool) (outcome : HttpOutcome)
    (body cbody : List (String × JsonVal)) (csvPart : Option (String × String)) :
    ((generate_budget db now kc outcome body).status ≠ 200 →
      hasKey (generate_budget db now kc outcome body).body "error" = true) ∧
    (∀ h, chat db kc outcome cbody = some h → h.status ≠ 200 →
      hasKey h.body "error" = true) ∧
    ((upload_transactions db now kc outcome csvPart).status ≠ 200 →
      hasKey (upload_transactions db now kc outcome csvPart).body "error" = true) ∧
    (∀ h, get_budget db = some h → h.status ≠ 200 →
      h.status = 404 ∧ h.body = .obj [("message", .str "No budget plan found.")] ∧
      hasKey h.body "error" = false) ∧
    (get_transactions db).status = 200 := by
  refine ⟨?_, ?_, ?_, ?_, rfl⟩
  · unfold generate_budget
    repeat' split
    all_goals intro h
    all_goals first
      | rfl
      | exact absurd rfl h
  · unfold chat
    repeat' split
    all_goals intro h heq
    all_goals (cases heq
               all_goals intro hst
               all_goals first | rfl | exact absurd rfl hst)
  · unfold upload_transactions
    repeat' split
    all_goals intro h
    all_goals first
      | rfl
      | exact absurd rfl h
  · unfold get_budget
    repeat' split
    all_goals intro h heq
    all_goals (cases heq
               all_goals intro hst
               all_goals first | exact absurd rfl hst | exact ⟨rfl, rfl, rfl⟩)

/-- C5 (witness): the amended statement at concrete inputs — an invalid
budget request yields an `error` envelope, and the empty-table GET
`/api/budget` yields the keyless 404 message body. -/
theorem C5_witness :
    hasKey (generate_budget emptyDb "2026-10-12" true (.ok forbiddenResp) []).body
      "error" = true ∧
    ((⟨404, .obj [("message", .str "No budget plan found.")], emptyDb⟩ :
        HandlerResult).status = 404 ∧
     (⟨404, .obj [("message", .str "No budget plan found.")], emptyDb⟩ :
        HandlerResult).body = .obj [("message", .str "No budget plan found.")] ∧
     hasKey (⟨404, .obj [("message", .str "No budget plan found.")], emptyDb⟩ :
        HandlerResult).body "error" = false) :=
  ⟨(C5_theorem emptyDb "2026-10-12" true (.ok forbiddenResp) [] [] none).1 (by decide),
   (C5_theorem emptyDb "2026-10-12" true (.ok forbiddenResp) [] [] none).2.2.2.1
     ⟨404, .obj [("message", .str "No budget plan found.")], emptyDb⟩ rfl (by decide)⟩

/-- C6 (counterexample): a decoded transaction object whose
`description` is explicitly `null` leads to a transactions row whose
`description` column value is `null` — the `t.get('description', ...)`
default does not fire on an explicit null, so the NOT NULL guarantee
fails for that insert. -/
theorem C6_counterexample :
    (upload_transactions emptyDb "2026-10-12" true
        (.ok (planResp "[\x7b\"description\": null\x7d]"))
        (some ("t.csv", "raw"))).db.transactions =
      [⟨.str "2026-10-12", .null, .num 0, .str "Miscellaneous"⟩] ∧
    (⟨.str "2026-10-12", .null, .num 0, .str "Miscellaneous"⟩ : TransRow).description =
      .null :=
  ⟨rfl, rfl⟩

/-- C6 (amended): in every row bound to the transactions INSERT, `date`
and `amount` are never null (`date` falls back to the current date,
`amount` is always a float); `description` and `category` are null
exactly when the decoded object maps them to an explicit null — only a
missing key is replaced by the documented default. -/
theorem C6_theorem (now : String) (kvs : List (String × JsonVal)) (row : TransRow)
    (h : rowOfTrans now (.obj kvs) = some row) :
    row.date ≠ .null ∧
    (∃ q, row.amount = .num q) ∧
    (row.description = .null ↔ pyGet kvs "description" = some .null) ∧
    (row.category = .null ↔ pyGet kvs "category" = some .null) := by
  cases ha : rowAmountVal kvs with
  | none =>
    have hnone : rowOfTrans now (.obj kvs) = none := by
      simp only [rowOfTrans, ha]
    rw [hnone] at h
    exact Option.noConfusion h
  | some a =>
    have hred : rowOfTrans now (.obj kvs) =
        some ⟨(if pyTruthy ((pyGet kvs "date").getD .null)
               then (pyGet kvs "date").getD .null else .str now),
              pyGetD kvs "description" (.str "Unknown Description"),
              .num a,
              pyGetD kvs "category" (.str "Miscellaneous")⟩ := by
      simp only [rowOfTrans, ha]
    rw [hred] at h
    have h' : (⟨(if pyTruthy ((pyGet kvs "date").getD .null)
                 then (pyGet kvs "date").getD .null else .str now),
                pyGetD kvs "description" (.str "Unknown Description"),
                .num a,
                pyGetD kvs "category" (.str "Miscellaneous")⟩ : TransRow) = row := by
      injection h
    rw [← h']
    refine ⟨?_, ⟨a, rfl⟩, ?_, ?_⟩
    · show (if pyTruthy ((pyGet kvs "date").getD .null)
            then (pyGet kvs "date").getD .null else .str now) ≠ .null
      by_cases hd : pyTruthy ((pyGet kvs "date").getD .null) = true
      · rw [if_pos hd]
        intro heq
        rw [heq] at hd
        exact absurd hd (by decide)
      · rw [if_neg hd]
        intro heq
        exact JsonVal.noConfusion heq
    · show pyGetD kvs "description" (.str "Unknown Description") = .null ↔
        pyGet kvs "description" = some .null
      cases hg : pyGet kvs "description" with
      | none => simp [pyGetD, hg]
      | some v => simp [pyGetD, hg]
    · show pyGetD kvs "category" (.str "Miscellaneous") = .null ↔
        pyGet kvs "category" = some .null
      cases hg : pyGet kvs "category" with
      | none => simp [pyGetD, hg]
      | some v => simp [pyGetD, hg]

/-- C6 (witness): the amended statement at a concrete decoded object
with only a `category` key. -/
theorem C6_witness :
    (⟨.str "2026-10-12", .str "Unknown Description", .num 0, .str "Groceries"⟩ :
        TransRow).date ≠ .null ∧
    (∃ q, (⟨.str "2026-10-12", .str "Unknown Description", .num 0, .str "Groceries"⟩ :
        TransRow).amount = .num q) ∧
    ((⟨.str "2026-10-12", .str "Unknown Description", .num 0, .str "Groceries"⟩ :
        TransRow).description = .null ↔
      pyGet [("category", .str "Groceries")] "description" = some .null) ∧
    ((⟨.str "2026-10-12", .str "Unknown Description", .num 0, .str "Groceries"⟩ :
        TransRow).category = .null ↔
      pyGet [("category", .str "Groceries")] "category" = some .null) :=
  C6_theorem "2026-10-12" [("category", .str "Groceries")]
    ⟨.str "2026-10-12", .str "Unknown Description", .num 0, .str "Groceries"⟩ rfl

/-- C7: the handlers only append rows or read: after any of the five
handlers runs, the budgets and transactions tables extend their previous
contents (every pre-existing row survives unchanged, in place); the read
handlers leave the database exactly as it was. -/
theorem C7_theorem (db : DbState) (now : String) (kc : Bool) (outcome : HttpOutcome)
    (body cbody : List (String × JsonVal)) (csvPart : Option (String × String)) :
    (∃ new, (generate_budget db now kc outcome body).db.budgets = db.budgets ++ new) ∧
    (generate_budget db now kc outcome body).db.transactions = db.transactions ∧
    (∀ h, get_budget db = some h → h.db = db) ∧
    (∀ h, chat db kc outcome cbody = some h → h.db = db) ∧
    (∃ new, (upload_transactions db now kc outcome csvPart).db.transactions =
      db.transactions ++ new) ∧
    (upload_transactions db now kc outcome csvPart).db.budgets = db.budgets ∧
    (get_transactions db).db = db := by
  refine ⟨?_, ?_, ?_, ?_, ?_, ?_, rfl⟩
  · unfold generate_budget
    repeat' split
    all_goals first
      | exact ⟨[], (List.append_nil _).symm⟩
      | exact ⟨_, rfl⟩
  · unfold generate_budget
    repeat' split
    all_goals rfl
  · unfold get_budget
    repeat' split
    all_goals intro h heq
    all_goals (cases heq
               all_goals rfl)
  · unfold chat
    repeat' split
    all_goals intro h heq
    all_goals (cases heq
               all_goals rfl)
  · unfold upload_transactions
    repeat' split
    all_goals first
      | exact ⟨[], (List.append_nil _).symm⟩
      | exact ⟨_, rfl⟩
  · unfold upload_transactions
    repeat' split
    all_goals rfl

/-- C7 (witness): the frame property at concrete inputs, including the
conjunct with a hypothesis (GET `/api/budget` on the empty table). -/
theorem C7_witness :
    (∃ new, (generate_budget emptyDb "2026-10-12" true (.ok forbiddenResp)
        budgetBody1).db.budgets = emptyDb.budgets ++ new) ∧
    (⟨404, .obj [("message", .str "No budget plan found.")], emptyDb⟩ :
        HandlerResult).db = emptyDb :=
  ⟨(C7_theorem emptyDb "2026-10-12" true (.ok forbiddenResp) budgetBody1 [] none).1,
   (C7_theorem emptyDb "2026-10-12" true (.ok forbiddenResp) budgetBody1 [] none).2.2.1
     ⟨404, .obj [("message", .str "No budget plan found.")], emptyDb⟩ rfl⟩

/-- Budgets row as stored by a successful POST `/api/budget`. -/
def budgetRow1 : BudgetRow := ⟨.num 100, .num 50, .str "car", "\x7b\x7d", "2026-01-01 00:00:00"⟩

/-- C9: GET `/api/budget` answers 404 with the fixed message body when
the budgets table is empty, and 200 with the parsed `plan_json` and
`created_at` of the row with the highest id (the last row) otherwise;
moreover every row `generate_budget` adds has JSON-parseable
`plan_json`, so the parse on read cannot fail on rows this system
wrote. -/
theorem C9_theorem (db : DbState) :
    (db.budgets = [] →
      get_budget db = some ⟨404, .obj [("message", .str "No budget plan found.")], db⟩) ∧
    (∀ b, db.budgets.getLast? = some b → ∀ plan, jsonLoads b.plan_json = some plan →
      get_budget db = some ⟨200, .obj [("plan", plan), ("created_at", .str b.created_at)], db⟩) ∧
    (∀ now kc outcome body r,
      r ∈ (generate_budget db now kc outcome body).db.budgets →
      r ∈ db.budgets ∨ (jsonLoads r.plan_json).isSome = true) := by
  refine ⟨?_, ?_, ?_⟩
  · intro h
    unfold get_budget
    rw [h]
    rfl
  · intro b hb plan hp
    unfold get_budget
    rw [hb]
    simp only [hp]
  · intro now kc outcome body r
    by_cases hv : (pyTruthy ((pyGet body "income").getD .null) &&
        pyTruthy ((pyGet body "expenses").getD .null) &&
        pyTruthy ((pyGet body "goal").getD .null)) = true
    case neg =>
      rw [generate_budget_validation_fail db now kc outcome body (Bool.eq_false_iff.mpr hv)]
      exact Or.inl
    case pos =>
      by_cases hs : (call_gemini_api kc outcome).status ≠ 200
      · rw [generate_budget_gemini_fail db now kc outcome body hv hs]
        exact Or.inl
      · unfold generate_budget
        rw [hv]
        simp only [Bool.not_true, Bool.false_eq_true, if_false]
        rw [if_neg hs]
        split
        · split
          · rename_i planData heq
            intro hr
            rcases List.mem_append.mp hr with hold | hnew
            · exact Or.inl hold
            · rw [List.mem_singleton.mp hnew]
              exact Or.inr (by simp [heq])
          · exact Or.inl
        · exact Or.inl
        · exact Or.inl

/-- C9 (witness): both branches at concrete tables. -/
theorem C9_witness :
    get_budget emptyDb =
      some ⟨404, .obj [("message", .str "No budget plan found.")], emptyDb⟩ ∧
    get_budget ⟨[budgetRow1], []⟩ =
      some ⟨200, .obj [("plan", .obj []), ("created_at", .str "2026-01-01 00:00:00")],
            ⟨[budgetRow1], []⟩⟩ :=
  ⟨(C9_theorem emptyDb).1 rfl,
   (C9_theorem ⟨[budgetRow1], []⟩).2.1 budgetRow1 rfl (.obj []) rfl⟩

/-- Decoded-array text whose single transaction carries the integer
amount 10^400, written as a 401-digit JSON integer literal. -/
def hugeIntStr : String :=
  "[\x7b\"amount\": 1" ++ String.mk (List.replicate 400 '0') ++ "\x7d]"

/-- C10 (counterexample): a decoded amount of 10^400 — a JSON integer
literal, decoded by `json.loads` as a Python int — makes `float()` raise
`OverflowError`, which `except (ValueError, TypeError)` does not catch:
the request aborts with 500 and no row is inserted, so the conversion is
not replaced by 0.0 and the error branch IS reached on account of a
malformed amount. -/
theorem C10_counterexample :
    jsonLoads hugeIntStr = some (.arr [.obj [("amount", .int ((10 : Int) ^ 400))]]) ∧
    pyFloat (.int ((10 : Int) ^ 400)) = .overflow ∧
    (upload_transactions emptyDb "2026-10-12" true (.ok (planResp hugeIntStr))
        (some ("t.csv", "raw"))).status = 500 ∧
    (upload_transactions emptyDb "2026-10-12" true (.ok (planResp hugeIntStr))
        (some ("t.csv", "raw"))).db.transactions = [] :=
  ⟨rfl, rfl, rfl, rfl⟩

/-- C10 (amended): a `float()` failure on a transaction's amount aborts
the request only through an uncaught `OverflowError`.  When the
conversion fails with a `ValueError` or `TypeError` — the classes
`except (ValueError, TypeError)` catches — the amount is replaced by 0.0
and the per-row insertion still occurs; when it fails with
`OverflowError` (an integer outside the double range), the iteration
raises past that clause, the request is aborted and no row is bound. -/
theorem C10_theorem (now : String) (kvs : List (String × JsonVal)) :
    (pyFloat (pyGetD kvs "amount" (.int 0)) = .caught →
      (rowOfTrans now (.obj kvs)).isSome = true ∧
      (rowOfTrans now (.obj kvs)).map TransRow.amount = some (.num 0)) ∧
    (pyFloat (pyGetD kvs "amount" (.int 0)) = .overflow →
      rowOfTrans now (.obj kvs) = none) := by
  constructor
  · intro hc
    have ha : rowAmountVal kvs = some 0 := by
      unfold rowAmountVal
      rw [hc]
    exact ⟨by simp [rowOfTrans, ha], by simp [rowOfTrans, ha]⟩
  · intro ho
    have ha : rowAmountVal kvs = none := by
      unfold rowAmountVal
      rw [ho]
    simp [rowOfTrans, ha]

/-- C10 (witness): the amended statement at a caught failure (a
non-numeric string amount) and at the overflowing integer amount. -/
theorem C10_witness :
    ((rowOfTrans "2026-10-12" (.obj [("amount", .str "oops")])).isSome = true ∧
     (rowOfTrans "2026-10-12" (.obj [("amount", .str "oops")])).map TransRow.amount =
       some (.num 0)) ∧
    rowOfTrans "2026-10-12" (.obj [("amount", .int ((10 : Int) ^ 400))]) = none :=
  ⟨( C10_theorem "2026-10-12" [("amount", .str "oops")]).1 rfl,
   ( C10_theorem "2026-10-12" [("amount", .int ((10 : Int) ^ 400))]).2 rfl⟩
